import Mathlib

/-!
# Verification of the agriculture dashboard's arithmetic core

A shallow embedding, over `ℚ`, of the data tables and arithmetic transforms
of `agriculture_platform.py`: the memoized sample tables, the derived
per-mu profit column, the mock recommendation generator, the risk
simulator's scenario adjustment, the input/output ratio, and the top-N /
group-sum aggregations (pandas `nlargest` keeps ties in order of
appearance, i.e. it is a stable descending selection).
-/

namespace AgriPlatform

/-- One row of the planting table (`planting_data`, lines 23-30):
plot id, crop name, crop type, planted area in mu, season. -/
structure PlantingRow where
  plotId : String
  cropName : String
  cropType : String
  areaMu : ℚ
  season : String
deriving DecidableEq, Repr

/-- One row of the crop-economics table (`benefit_data`, lines 33-43):
crop name, yield per mu, cost per mu, unit price, land type, the derived
per-mu profit column, and the input/output-ratio column added later by
`create_benefit_analysis` (absent, i.e. `none`, as loaded). -/
structure BenefitRow where
  cropName : String
  yieldPerMu : ℚ
  costPerMu : ℚ
  pricePerUnit : ℚ
  landType : String
  profitPerMu : ℚ
  ioRatio : Option ℚ
deriving DecidableEq, Repr

/-- The per-mu profit formula (line 42-43):
`亩效益/元 = 亩产量/斤 * 销售单价/(元/斤) - 种植成本/(元/亩)`. -/
def profit_per_mu (y p c : ℚ) : ℚ := y * p - c

/-- Build one economics row, computing the derived profit column exactly as
`load_sample_data` does at lines 42-43. -/
def mkBenefitRow (name : String) (y c p : ℚ) (land : String) : BenefitRow :=
  { cropName := name, yieldPerMu := y, costPerMu := c, pricePerUnit := p,
    landType := land, profitPerMu := profit_per_mu y p c, ioRatio := none }

/-- The planting table returned by `load_sample_data` (lines 23-30). -/
def samplePlanting : List PlantingRow :=
  [ ⟨"A1", "小麦", "粮食", 80, "单季"⟩,
    ⟨"A2", "玉米", "粮食", 55, "单季"⟩,
    ⟨"A3", "玉米", "粮食", 35, "单季"⟩,
    ⟨"A4", "黄豆", "粮食（豆类）", 72, "单季"⟩,
    ⟨"A5", "绿豆", "粮食（豆类）", 68, "单季"⟩,
    ⟨"A6", "谷子", "粮食", 55, "单季"⟩,
    ⟨"B1", "小麦", "粮食", 60, "单季"⟩,
    ⟨"B2", "黑豆", "粮食（豆类）", 46, "单季"⟩,
    ⟨"B3", "红豆", "粮食（豆类）", 40, "单季"⟩,
    ⟨"B4", "绿豆", "粮食（豆类）", 28, "单季"⟩ ]

/-- The crop-economics table returned by `load_sample_data` (lines 33-43),
with the derived profit column computed at load time. -/
def sampleBenefit : List BenefitRow :=
  [ mkBenefitRow "小麦" 600 500 1.5 "平旱地",
    mkBenefitRow "玉米" 800 600 1.2 "平旱地",
    mkBenefitRow "黄豆" 400 400 3.0 "平旱地",
    mkBenefitRow "绿豆" 350 350 7.0 "平旱地",
    mkBenefitRow "黑豆" 500 400 7.5 "平旱地",
    mkBenefitRow "红豆" 400 350 8.0 "平旱地",
    mkBenefitRow "谷子" 450 400 2.0 "平旱地",
    mkBenefitRow "西红柿" 3000 1200 2.5 "水浇地",
    mkBenefitRow "黄瓜" 4000 1500 2.0 "大棚",
    mkBenefitRow "香菇" 2000 8000 15.0 "大棚" ]

/-- The pair of memoized tables returned by `load_sample_data` (lines 20-45). -/
def load_sample_data : List PlantingRow × List BenefitRow :=
  (samplePlanting, sampleBenefit)

/-! ## Mock recommendation generator (`display_optimization_result`) -/

/-- Line 167-168: the plot's current crop is the first planting row whose
plot id matches; a plot absent from the planting table is labeled `未知`. -/
def currentCropOf (pd : List PlantingRow) (plot : String) : String :=
  ((pd.find? (fun r => r.plotId == plot)).map (fun r => r.cropName)).getD "未知"

/-- Lines 170-171: the current per-mu profit is looked up by crop name in
the economics table; a crop absent from the table yields the `0` sentinel. -/
def currentBenefitOf (bd : List BenefitRow) (crop : String) : ℚ :=
  ((bd.find? (fun r => r.cropName == crop)).map (fun r => r.profitPerMu)).getD 0

/-- Line 173: percentage improvement, guarded by `current_benefit > 0`;
the fallback value is `100`. -/
def improvementPct (old new : ℚ) : ℚ :=
  if 0 < old then (new - old) / old * 100 else 100

/-- Model of `pandas.unique` on a column: distinct values in order of
first appearance (line 163). -/
def uniqueFirst (l : List String) : List String :=
  l.foldl (fun acc x => if acc.contains x then acc else acc ++ [x]) []

/-- Deterministic model of numpy's seeded legacy generator: the state
after `np.random.seed 42`. The exact MT19937 stream is not reproduced;
the model keeps what the claims rely on: the state is a fixed constant,
and each draw is a pure function of the state. -/
def seededState : Nat := 42

/-- Deterministic model of one numpy state transition (64-bit LCG step as
a stand-in for the MT19937 update). -/
def nextState (s : Nat) : Nat :=
  (6364136223846793005 * s + 1442695040888963407) % (2 ^ 64)

/-- Deterministic model of `np.random.choice(names)` (line 169): pick one
element of `names` as a pure function of the generator state, and return
the advanced state. -/
def npChoice (names : List String) (s : Nat) : String × Nat :=
  (names.getD (s % names.length) "", nextState s)

/-- One row of the mock optimization result table (lines 175-182). -/
structure ResultRow where
  plot : String
  currentCrop : String
  recommendedCrop : String
  currentBenefit : ℚ
  newBenefit : ℚ
  improvement : ℚ
deriving DecidableEq, Repr

/-- The crop drawn for the current generator state (line 169). -/
def recommendedFor (bd : List BenefitRow) (s : Nat) : String :=
  (npChoice (bd.map (fun r => r.cropName)) s).1

/-- Line 172: the recommended crop's per-mu profit, read off the first
matching economics row (the draw always returns one of the table's crop
names when the table is nonempty, so the lookup always finds a row). -/
def newBenefitFor (bd : List BenefitRow) (s : Nat) : ℚ :=
  ((bd.find? (fun r => r.cropName == recommendedFor bd s)).map
    (fun r => r.profitPerMu)).getD 0

/-- One iteration of the loop at lines 166-182 for a given plot and
generator state. -/
def mkResultRow (pd : List PlantingRow) (bd : List BenefitRow)
    (plot : String) (s : Nat) : ResultRow :=
  { plot := plot
    currentCrop := currentCropOf pd plot
    recommendedCrop := recommendedFor bd s
    currentBenefit := currentBenefitOf bd (currentCropOf pd plot)
    newBenefit := newBenefitFor bd s
    improvement := improvementPct (currentBenefitOf bd (currentCropOf pd plot))
      (newBenefitFor bd s) }

/-- The whole loop of lines 166-182, threading the generator state (one
draw per plot, so the state advances once per iteration). -/
def optimizationRows (pd : List PlantingRow) (bd : List BenefitRow) :
    List String → Nat → List ResultRow
  | [], _ => []
  | plot :: rest, s =>
    mkResultRow pd bd plot s :: optimizationRows pd bd rest (nextState s)

/-- The result table of `display_optimization_result` (lines 162-184):
the first 15 distinct plots, processed with the seeded generator. -/
def display_optimization_result (pd : List PlantingRow) (bd : List BenefitRow) :
    List ResultRow :=
  optimizationRows pd bd ((uniqueFirst (pd.map (fun r => r.plotId))).take 15) seededState

/-! ## Risk simulator (`create_risk_simulator`) -/

/-- The percentage adjustment applied independently to price, yield and
cost at lines 247-249: `base * (1 + change / 100)`. -/
def scenario_adjustment (base pct : ℚ) : ℚ := base * (1 + pct / 100)

/-- Line 244: the selected crop's economics row (first match). -/
def riskCropData (bd : List BenefitRow) (crop : String) : Option BenefitRow :=
  bd.find? (fun r => r.cropName == crop)

/-- Line 245: the selected crop's original per-mu profit. -/
def riskOriginalProfit (bd : List BenefitRow) (crop : String) : Option ℚ :=
  (riskCropData bd crop).map (fun r => r.profitPerMu)

/-- Lines 247-251: the stressed profit
`new_yield * new_price - new_cost` after adjusting each factor. -/
def stressedProfit (r : BenefitRow) (priceChg yieldChg costChg : ℚ) : ℚ :=
  scenario_adjustment r.yieldPerMu yieldChg * scenario_adjustment r.pricePerUnit priceChg
    - scenario_adjustment r.costPerMu costChg

/-! ## Aggregations -/

/-- pandas `nlargest n col` (lines 92, 150, 198, 360): the first `n` rows
of a stable descending sort on the key; ties keep original order
(`List.insertionSort` inserts a row before the first existing row whose
key is `≤` its own, so earlier rows stay ahead of equal-keyed later ones). -/
def nlargestBy (n : Nat) (key : α → ℚ) (xs : List α) : List α :=
  (List.insertionSort (fun a b => key b ≤ key a) xs).take n

/-- Line 74: `groupby('作物类型')['种植面积/亩'].sum()` — the per-category
planting-area sum. -/
def groupAreaSum (pd : List PlantingRow) (c : String) : ℚ :=
  ((pd.filter (fun r => r.cropType == c)).map (fun r => r.areaMu)).sum

/-- Line 54: the total planting area. -/
def totalArea (pd : List PlantingRow) : ℚ :=
  (pd.map (fun r => r.areaMu)).sum

/-- The crop-type categories of the planting table, as grouping keys. -/
def cropTypeKeys (pd : List PlantingRow) : List String :=
  uniqueFirst (pd.map (fun r => r.cropType))

/-! ## View-function effects on the tables

Each view routine's effect on the two tables it receives. The dashboard,
planner and risk simulator only read the tables; `create_benefit_analysis`
assigns the derived input/output-ratio column in place at line 359. -/

/-- The dashboard view `create_dashboard` (lines 48-102) performs no
assignment to either table. -/
def dashboardTables (pd : List PlantingRow) (bd : List BenefitRow) :
    List PlantingRow × List BenefitRow := (pd, bd)

/-- The planner view `create_planner` (lines 105-222, including
`display_optimization_result`) builds
fresh result frames and perform no assignment to either table. -/
def plannerTables (pd : List PlantingRow) (bd : List BenefitRow) :
    List PlantingRow × List BenefitRow := (pd, bd)

/-- The risk-simulator view `create_risk_simulator` (lines 225-319)
performs no assignment to either table. -/
def riskSimulatorTables (pd : List PlantingRow) (bd : List BenefitRow) :
    List PlantingRow × List BenefitRow := (pd, bd)

/-- The benefit-analysis view `create_benefit_analysis` (lines 322-372):
line 359 assigns
`benefit_data['投入产出比'] = 亩效益/元 / 种植成本/(元/亩)` in place, adding
the ratio column to the economics table it received. -/
def benefitAnalysisTables (pd : List PlantingRow) (bd : List BenefitRow) :
    List PlantingRow × List BenefitRow :=
  (pd, bd.map (fun r => { r with ioRatio := some (r.profitPerMu / r.costPerMu) }))

/-- Forget the ratio column, recovering a row as loaded. -/
def eraseRatio (r : BenefitRow) : BenefitRow := { r with ioRatio := none }

/-- The wheat row of the economics table, with its derived profit 400. -/
def wheatRow : BenefitRow := mkBenefitRow "小麦" 600 500 1.5 "平旱地"

/-! ## Helper lemmas -/

/-- Every row of the loaded economics table has strictly positive derived
profit. -/
lemma sampleBenefit_profit_pos : ∀ r ∈ sampleBenefit, 0 < r.profitPerMu := by
  intro r hr
  simp only [sampleBenefit, List.mem_cons, List.not_mem_nil, or_false] at hr
  rcases hr with rfl | rfl | rfl | rfl | rfl | rfl | rfl | rfl | rfl | rfl <;>
    norm_num [mkBenefitRow, profit_per_mu]

/-- Every row of the loaded economics table has strictly positive cost. -/
lemma sampleBenefit_cost_pos : ∀ r ∈ sampleBenefit, 0 < r.costPerMu := by
  intro r hr
  simp only [sampleBenefit, List.mem_cons, List.not_mem_nil, or_false] at hr
  rcases hr with rfl | rfl | rfl | rfl | rfl | rfl | rfl | rfl | rfl | rfl <;>
    norm_num [mkBenefitRow]

/-- Every row of the loaded economics table satisfies the profit formula
(it was computed by it at load time). -/
lemma sampleBenefit_profit_formula :
    ∀ r ∈ sampleBenefit,
      r.profitPerMu = profit_per_mu r.yieldPerMu r.pricePerUnit r.costPerMu := by
  intro r hr
  simp only [sampleBenefit, List.mem_cons, List.not_mem_nil, or_false] at hr
  rcases hr with rfl | rfl | rfl | rfl | rfl | rfl | rfl | rfl | rfl | rfl <;>
    rfl

/-- A baseline produced by the generator's economics lookup is either the
`0` sentinel or one of the table's (strictly positive) profits. -/
lemma currentBenefitOf_sample_cases (crop : String) :
    currentBenefitOf sampleBenefit crop = 0 ∨
      0 < currentBenefitOf sampleBenefit crop := by
  rcases h : sampleBenefit.find? (fun r => r.cropName == crop) with _ | r
  · exact Or.inl (by simp [currentBenefitOf, h])
  · refine Or.inr ?_
    have hm := sampleBenefit_profit_pos r (List.mem_of_find?_eq_some h)
    simpa [currentBenefitOf, h] using hm

/-! ## Claims -/

/-- C1: every row of the crop-economics table stores
`profit_per_mu = yield * price - cost` in its derived profit column; in
particular the wheat row stores 400 and the mushroom (香菇) row 22000. -/
theorem C1_profit_column (r : BenefitRow) (hr : r ∈ sampleBenefit) :
    r.profitPerMu = profit_per_mu r.yieldPerMu r.pricePerUnit r.costPerMu ∧
    currentBenefitOf sampleBenefit "小麦" = 400 ∧
    currentBenefitOf sampleBenefit "香菇" = 22000 :=
  ⟨sampleBenefit_profit_formula r hr,
   by simp [currentBenefitOf, sampleBenefit, mkBenefitRow]; norm_num [profit_per_mu],
   by simp [currentBenefitOf, sampleBenefit, mkBenefitRow]; norm_num [profit_per_mu]⟩

/-- Witness for C1 at the wheat row. -/
theorem C1_profit_column_witness :
    wheatRow ∈ sampleBenefit ∧
    (wheatRow.profitPerMu =
        profit_per_mu wheatRow.yieldPerMu wheatRow.pricePerUnit wheatRow.costPerMu ∧
      currentBenefitOf sampleBenefit "小麦" = 400 ∧
      currentBenefitOf sampleBenefit "香菇" = 22000) :=
  ⟨by simp [wheatRow, sampleBenefit], C1_profit_column wheatRow (by simp [wheatRow, sampleBenefit])⟩

/-- C2: for every baseline actually produced by the generator's lookup
(the current per-mu profits) and every recommended profit, the delta is
`(new-old)/old*100` when the baseline is nonzero, and the fallback `100`
when the baseline is zero (in particular when the crop is missing);
moreover `improvementPct 100 150 = 50` and `improvementPct 0 50 = 100`. -/
theorem C2_percentage_delta (crop : String) (nw : ℚ) :
    (currentBenefitOf sampleBenefit crop ≠ 0 →
      improvementPct (currentBenefitOf sampleBenefit crop) nw =
        (nw - currentBenefitOf sampleBenefit crop) /
          currentBenefitOf sampleBenefit crop * 100) ∧
    (currentBenefitOf sampleBenefit crop = 0 →
      improvementPct (currentBenefitOf sampleBenefit crop) nw = 100) ∧
    improvementPct 100 150 = 50 ∧ improvementPct 0 50 = 100 := by
  refine ⟨?_, ?_, by norm_num [improvementPct], by norm_num [improvementPct]⟩
  · intro hne
    rcases currentBenefitOf_sample_cases crop with h0 | hpos
    · exact absurd h0 hne
    · simp [improvementPct, hpos]
  · intro h0
    simp [improvementPct, h0]

/-- Witness for C2 at the wheat baseline (400) and a missing crop. -/
theorem C2_percentage_delta_witness :
    currentBenefitOf sampleBenefit "小麦" ≠ 0 ∧
    improvementPct (currentBenefitOf sampleBenefit "小麦") 150 =
      (150 - currentBenefitOf sampleBenefit "小麦") /
        currentBenefitOf sampleBenefit "小麦" * 100 ∧
    currentBenefitOf sampleBenefit "此作物不存在" = 0 ∧
    improvementPct (currentBenefitOf sampleBenefit "此作物不存在") 50 = 100 :=
  ⟨by simp [currentBenefitOf, sampleBenefit, mkBenefitRow]; norm_num [profit_per_mu],
   (C2_percentage_delta "小麦" 150).1
     (by simp [currentBenefitOf, sampleBenefit, mkBenefitRow]; norm_num [profit_per_mu]),
   by simp [currentBenefitOf, sampleBenefit, mkBenefitRow],
   (C2_percentage_delta "此作物不存在" 50).2.1
     (by simp [currentBenefitOf, sampleBenefit, mkBenefitRow])⟩

/-- C3: `scenario_adjustment` at zero percent change is the identity, and
the stressed profit with all three change percentages zero equals the
original derived per-mu profit of every economics row. -/
theorem C3_scenario_identity (b : ℚ) (r : BenefitRow) (hr : r ∈ sampleBenefit) :
    scenario_adjustment b 0 = b ∧ stressedProfit r 0 0 0 = r.profitPerMu := by
  refine ⟨by simp [scenario_adjustment], ?_⟩
  have hf := sampleBenefit_profit_formula r hr
  simp [stressedProfit, scenario_adjustment, hf, profit_per_mu]

/-- Witness for C3 at base value 600 and the wheat row. -/
theorem C3_scenario_identity_witness :
    wheatRow ∈ sampleBenefit ∧
    (scenario_adjustment 600 0 = 600 ∧
      stressedProfit wheatRow 0 0 0 = wheatRow.profitPerMu) :=
  ⟨by simp [wheatRow, sampleBenefit],
   C3_scenario_identity 600 wheatRow (by simp [wheatRow, sampleBenefit])⟩

/-- C6: no division in the program divides by zero on the sample tables:
every economics row has strictly positive cost and strictly positive
derived profit (so the input/output ratio and the risk simulator's
profit-change divisions are defined), the risk simulator's baseline
profit exists and is strictly positive for every selectable crop, and the
recommendation delta falls back to `100` whenever its baseline is not
strictly positive. -/
theorem C6_no_zero_division (r : BenefitRow) (hr : r ∈ sampleBenefit)
    (crop : String) (hc : crop ∈ sampleBenefit.map (fun x => x.cropName)) :
    (0 < r.costPerMu ∧ 0 < r.profitPerMu) ∧
    (riskOriginalProfit sampleBenefit crop ≠ none ∧
      0 < (riskOriginalProfit sampleBenefit crop).getD 0) ∧
    ∀ old nw : ℚ, old ≤ 0 → improvementPct old nw = 100 := by
  refine ⟨⟨sampleBenefit_cost_pos r hr, sampleBenefit_profit_pos r hr⟩, ?_, ?_⟩
  · rcases List.mem_map.mp hc with ⟨x, hx, hname⟩
    have hsome : (sampleBenefit.find? (fun y => y.cropName == crop)).isSome :=
      List.find?_isSome.mpr ⟨x, hx, by simp [hname]⟩
    rcases Option.isSome_iff_exists.mp hsome with ⟨y, hy⟩
    have hmem := List.mem_of_find?_eq_some hy
    refine ⟨by simp [riskOriginalProfit, riskCropData, hy], ?_⟩
    have := sampleBenefit_profit_pos y hmem
    simpa [riskOriginalProfit, riskCropData, hy] using this
  · intro old nw h
    simp [improvementPct, not_lt.mpr h]

/-- Witness for C6 at the wheat row and the wheat crop name. -/
theorem C6_no_zero_division_witness :
    (0 < wheatRow.costPerMu ∧ 0 < wheatRow.profitPerMu) ∧
    (riskOriginalProfit sampleBenefit "小麦" ≠ none ∧
      0 < (riskOriginalProfit sampleBenefit "小麦").getD 0) ∧
    improvementPct 0 500 = 100 :=
  ⟨(C6_no_zero_division wheatRow (by simp [wheatRow, sampleBenefit]) "小麦"
      (by simp [sampleBenefit, mkBenefitRow])).1,
   (C6_no_zero_division wheatRow (by simp [wheatRow, sampleBenefit]) "小麦"
      (by simp [sampleBenefit, mkBenefitRow])).2.1,
   (C6_no_zero_division wheatRow (by simp [wheatRow, sampleBenefit]) "小麦"
      (by simp [sampleBenefit, mkBenefitRow])).2.2 0 500 le_rfl⟩

/-- C8: the per-category planting-area sums, added over all crop-type
categories, equal the total planting area summed over every row of the
planting table (both are 539 mu). -/
theorem C8_group_sum_partition :
    ((cropTypeKeys samplePlanting).map (groupAreaSum samplePlanting)).sum =
      totalArea samplePlanting := by
  have hk : cropTypeKeys samplePlanting = ["粮食", "粮食（豆类）"] := by
    simp [cropTypeKeys, uniqueFirst, samplePlanting]
  rw [hk]
  simp [groupAreaSum, totalArea, samplePlanting]
  norm_num

/-- C4 as stated is false at a concrete input: a plot whose current crop
`奇异果` is absent from the economics table gets the zero-profit sentinel
and the fallback delta, but its displayed crop keeps its own name — it is
not relabeled `未知` (unknown). -/
theorem C4_counterexample :
    currentCropOf [⟨"X1", "奇异果", "水果", 10, "单季"⟩] "X1" = "奇异果" ∧
    "奇异果" ∉ sampleBenefit.map (fun r => r.cropName) ∧
    currentBenefitOf sampleBenefit "奇异果" = 0 ∧
    improvementPct (currentBenefitOf sampleBenefit "奇异果") 400 = 100 ∧
    currentCropOf [⟨"X1", "奇异果", "水果", 10, "单季"⟩] "X1" ≠ "未知" := by
  have h0 : currentBenefitOf sampleBenefit "奇异果" = 0 := by
    simp [currentBenefitOf, sampleBenefit, mkBenefitRow]
  refine ⟨by simp [currentCropOf], by simp [sampleBenefit, mkBenefitRow], h0, ?_,
    by simp [currentCropOf]⟩
  rw [h0]
  simp [improvementPct]

/-- C4 (amended): when the generator's current-crop value is absent from
the economics table, nothing raises: the current per-mu profit is the `0`
sentinel and the percentage delta is the fallback `100`; the `未知`
(unknown) label is produced by the other lookup — a plot absent from the
planting table — not by a crop missing from the economics table. -/
theorem C4_missing_crop_fallback (pd : List PlantingRow) (bd : List BenefitRow)
    (plot : String) :
    (currentCropOf pd plot ∉ bd.map (fun r => r.cropName) →
      currentBenefitOf bd (currentCropOf pd plot) = 0 ∧
      ∀ nb : ℚ, improvementPct (currentBenefitOf bd (currentCropOf pd plot)) nb = 100) ∧
    (plot ∉ pd.map (fun r => r.plotId) → currentCropOf pd plot = "未知") := by
  constructor
  · intro hmiss
    have hnone : bd.find? (fun r => r.cropName == currentCropOf pd plot) = none := by
      rw [List.find?_eq_none]
      intro x hx
      simp only [beq_iff_eq]
      intro heq
      exact hmiss (List.mem_map.mpr ⟨x, hx, heq⟩)
    refine ⟨by simp [currentBenefitOf, hnone], fun nb => ?_⟩
    simp [currentBenefitOf, hnone, improvementPct]
  · intro hmiss
    have hnone : pd.find? (fun r => r.plotId == plot) = none := by
      rw [List.find?_eq_none]
      intro x hx
      simp only [beq_iff_eq]
      intro heq
      exact hmiss (List.mem_map.mpr ⟨x, hx, heq⟩)
    simp [currentCropOf, hnone]

/-- Witness for the amended C4 at the sample tables and the absent plot
id `Z9`. -/
theorem C4_missing_crop_fallback_witness :
    currentBenefitOf sampleBenefit (currentCropOf samplePlanting "Z9") = 0 ∧
    improvementPct (currentBenefitOf sampleBenefit (currentCropOf samplePlanting "Z9")) 50 = 100 ∧
    currentCropOf samplePlanting "Z9" = "未知" :=
  ⟨((C4_missing_crop_fallback samplePlanting sampleBenefit "Z9").1
      (by simp [currentCropOf, samplePlanting, sampleBenefit, mkBenefitRow])).1,
   ((C4_missing_crop_fallback samplePlanting sampleBenefit "Z9").1
      (by simp [currentCropOf, samplePlanting, sampleBenefit, mkBenefitRow])).2 50,
   (C4_missing_crop_fallback samplePlanting sampleBenefit "Z9").2
      (by simp [samplePlanting])⟩

/-- C5 as stated is false: the benefit-analysis view does not leave the
economics table as loaded — it adds the input/output-ratio column. -/
theorem C5_counterexample :
    benefitAnalysisTables samplePlanting sampleBenefit ≠
      (samplePlanting, sampleBenefit) := by
  intro h
  have h2 := congrArg (fun t => t.2.map (fun r => r.ioRatio)) h
  simp [benefitAnalysisTables, sampleBenefit, mkBenefitRow] at h2

/-- C5 (amended): the dashboard, planner and risk-simulator views leave
both tables exactly as they received them; the benefit-analysis view
leaves the planting table unchanged and changes the economics table only
by filling in the input/output-ratio column (every other column and the
row order are preserved); the loaded tables themselves are the fixed
constants returned by `load_sample_data`. -/
theorem C5_views_preserve_tables (pd : List PlantingRow) (bd : List BenefitRow) :
    dashboardTables pd bd = (pd, bd) ∧
    plannerTables pd bd = (pd, bd) ∧
    riskSimulatorTables pd bd = (pd, bd) ∧
    (benefitAnalysisTables pd bd).1 = pd ∧
    ((benefitAnalysisTables pd bd).2).map eraseRatio = bd.map eraseRatio ∧
    load_sample_data = (samplePlanting, sampleBenefit) :=
  ⟨rfl, rfl, rfl, rfl, by simp only [benefitAnalysisTables, List.map_map]; rfl, rfl⟩

/-- C9: the per-mu profit formula is linear in each argument
independently: doubling the yield adds exactly `yield * price`, doubling
the price adds exactly `yield * price`, and raising the cost by `d`
lowers the profit by exactly `d`. -/
theorem C9_profit_linear (y p c d : ℚ) :
    profit_per_mu (2 * y) p c - profit_per_mu y p c = y * p ∧
    profit_per_mu y (2 * p) c - profit_per_mu y p c = y * p ∧
    profit_per_mu y p (c + d) = profit_per_mu y p c - d := by
  refine ⟨?_, ?_, ?_⟩ <;> simp only [profit_per_mu] <;> ring

/-! ## Stability of the top-N selection -/

/-- Inserting a row whose key equals `v` into the stable descending order
puts it in front of every already-present row with key `v` (it only
passes rows with strictly greater keys). -/
lemma filter_orderedInsert_of_eq (key : α → ℚ) (v : ℚ) (x : α) (hx : key x = v)
    (l : List α) :
    (List.orderedInsert (fun a b => key b ≤ key a) x l).filter
        (fun a => decide (key a = v)) =
      x :: l.filter (fun a => decide (key a = v)) := by
  induction l with
  | nil => simp [hx]
  | cons y ys ih =>
    by_cases h : key y ≤ key x
    · simp only [List.orderedInsert, if_pos h]
      simp [hx]
    · have hy : ¬ (key y = v) := fun hv => h (le_of_eq (hv.trans hx.symm))
      simp only [List.orderedInsert, if_neg h, List.filter_cons, ih]
      simp [hy]

/-- Inserting a row whose key differs from `v` leaves the key-`v` rows of
the list untouched, in order. -/
lemma filter_orderedInsert_of_ne (key : α → ℚ) (v : ℚ) (x : α) (hx : ¬ key x = v)
    (l : List α) :
    (List.orderedInsert (fun a b => key b ≤ key a) x l).filter
        (fun a => decide (key a = v)) =
      l.filter (fun a => decide (key a = v)) := by
  induction l with
  | nil => simp [hx]
  | cons y ys ih =>
    by_cases h : key y ≤ key x
    · simp only [List.orderedInsert, if_pos h, List.filter_cons]
      simp [hx]
    · simp only [List.orderedInsert, if_neg h, List.filter_cons, ih]

/-- The stable descending sort keeps the rows of any single key value in
their original relative order (the classic stability characterization). -/
lemma filter_insertionSort_key (key : α → ℚ) (v : ℚ) (l : List α) :
    (List.insertionSort (fun a b => key b ≤ key a) l).filter
        (fun a => decide (key a = v)) =
      l.filter (fun a => decide (key a = v)) := by
  induction l with
  | nil => rfl
  | cons x xs ih =>
    simp only [List.insertionSort]
    by_cases hx : key x = v
    · rw [filter_orderedInsert_of_eq key v x hx, ih]
      simp [List.filter_cons, hx]
    · rw [filter_orderedInsert_of_ne key v x hx, ih]
      simp [List.filter_cons, hx]

/-- C7: every top-N selection is stable and deterministic: for any key
value `v`, the key-`v` rows of the selection are an initial segment of
the key-`v` rows of the original table in original order (so of two tied
rows in the selection, the one earlier in the table comes first), and
evaluating the selection again on the same table gives the same result. -/
theorem C7_topn_stable (n : Nat) (key : α → ℚ) (xs : List α) (v : ℚ) :
    ((nlargestBy n key xs).filter (fun a => decide (key a = v)) <+:
      xs.filter (fun a => decide (key a = v))) ∧
    ∀ ys, xs = ys → nlargestBy n key xs = nlargestBy n key ys := by
  constructor
  · have h : (nlargestBy n key xs).filter (fun a => decide (key a = v)) <+:
        (List.insertionSort (fun a b => key b ≤ key a) xs).filter
          (fun a => decide (key a = v)) := by
      refine ⟨((List.insertionSort (fun a b => key b ≤ key a) xs).drop n).filter
        (fun a => decide (key a = v)), ?_⟩
      rw [nlargestBy, ← List.filter_append, List.take_append_drop]
    rwa [filter_insertionSort_key] at h
  · intro ys h
    rw [h]

/-- Witness for C7: the dashboard's top-10-by-profit selection over the
sample economics table, at key value 400. -/
theorem C7_topn_stable_witness :
    ((nlargestBy 10 (fun r : BenefitRow => r.profitPerMu) sampleBenefit).filter
        (fun r => decide (r.profitPerMu = 400)) <+:
      sampleBenefit.filter (fun r => decide (r.profitPerMu = 400))) ∧
    nlargestBy 10 (fun r : BenefitRow => r.profitPerMu) sampleBenefit =
      nlargestBy 10 (fun r : BenefitRow => r.profitPerMu) sampleBenefit :=
  ⟨(C7_topn_stable 10 (fun r : BenefitRow => r.profitPerMu) sampleBenefit 400).1,
   (C7_topn_stable 10 (fun r : BenefitRow => r.profitPerMu) sampleBenefit 400).2
     sampleBenefit rfl⟩

/-! ## Determinism of the seeded generator -/

/-- A draw from a nonempty list of names lands in the list. -/
lemma getD_mod_mem (l : List String) (hl : l ≠ []) (s : Nat) :
    l.getD (s % l.length) "" ∈ l := by
  have hlen : 0 < l.length := List.length_pos.mpr hl
  have hm : s % l.length < l.length := Nat.mod_lt _ hlen
  rw [List.getD_eq_getElem?_getD, List.getElem?_eq_getElem hm, Option.getD_some]
  exact List.getElem_mem hm

/-- The modelled draw always recommends one of the economics table's crop
names when the table is nonempty. -/
lemma recommendedFor_mem (bd : List BenefitRow) (hbd : bd ≠ []) (s : Nat) :
    recommendedFor bd s ∈ bd.map (fun r => r.cropName) := by
  have hne : bd.map (fun r => r.cropName) ≠ [] := by
    intro h
    exact hbd (List.map_eq_nil_iff.mp h)
  simpa [recommendedFor, npChoice] using getD_mod_mem _ hne s

/-- Every row built by the recommendation loop recommends a crop of the
economics table (the table being nonempty). -/
lemma optimizationRows_rec_mem (pd : List PlantingRow) (bd : List BenefitRow)
    (hbd : bd ≠ []) :
    ∀ (plots : List String) (s : Nat) (r : ResultRow),
      r ∈ optimizationRows pd bd plots s →
      r.recommendedCrop ∈ bd.map (fun x => x.cropName) := by
  intro plots
  induction plots with
  | nil =>
    intro s r h
    simp [optimizationRows] at h
  | cons p rest ih =>
    intro s r h
    rw [optimizationRows] at h
    rcases List.mem_cons.mp h with hr | hr
    · subst hr
      exact recommendedFor_mem bd hbd s
    · exact ih (nextState s) r hr

/-- C10: the mock recommendation generator is deterministic — it is a
pure function of the two tables with the seed fixed inside, so two
executions over equal tables produce identical result rows (same
recommended crop and same percentage delta for every plot) — and every
recommended crop is drawn from the economics table's crop names. -/
theorem C10_fixed_seed_deterministic (pd pd' : List PlantingRow)
    (bd bd' : List BenefitRow) (hp : pd = pd') (hb : bd = bd') (hbd : bd ≠ []) :
    display_optimization_result pd bd = display_optimization_result pd' bd' ∧
    ∀ r ∈ display_optimization_result pd bd,
      r.recommendedCrop ∈ bd.map (fun x => x.cropName) := by
  subst hp
  subst hb
  exact ⟨rfl, fun r hr => optimizationRows_rec_mem pd bd hbd _ _ r hr⟩

/-- Witness for C10 at the sample tables and the first processed plot. -/
theorem C10_fixed_seed_deterministic_witness :
    display_optimization_result samplePlanting sampleBenefit =
      display_optimization_result samplePlanting sampleBenefit ∧
    (mkResultRow samplePlanting sampleBenefit "A1" seededState).recommendedCrop ∈
      sampleBenefit.map (fun x => x.cropName) := by
  have hbd : sampleBenefit ≠ [] := by simp [sampleBenefit]
  refine ⟨(C10_fixed_seed_deterministic samplePlanting samplePlanting sampleBenefit
      sampleBenefit rfl rfl hbd).1,
    (C10_fixed_seed_deterministic samplePlanting samplePlanting sampleBenefit
      sampleBenefit rfl rfl hbd).2 _ ?_⟩
  have hplots : (uniqueFirst (samplePlanting.map (fun r => r.plotId))).take 15 =
      ["A1", "A2", "A3", "A4", "A5", "A6", "B1", "B2", "B3", "B4"] := by
    simp [uniqueFirst, samplePlanting]
  simp only [display_optimization_result, hplots, optimizationRows]
  exact List.mem_cons_self _ _

end AgriPlatform
